import Mathlib

/-!
Verification of the session-scoped event pipeline of the MCP multi-tool
agent frontend (`app.py`).

The embedding is sequential and shallow:
* the process-wide `message_queues` dict becomes `Registry`, a finite map
  from session key to the channel's event history (a `List Event`;
  pushing appends, so the list records arrival order);
* the two LangGraph nodes `route_request` and `generate_response`, the
  spawned `process_message` body, the HTTP adapter `call_mcp_tool`, the
  `/chat` handler and the `/stream` generator are translated function by
  function from the source;
* the external collaborators (Groq oracle, Groq composer, MCP tool
  server) are opaque parameters: the oracle is an `Option Decision`
  (`none` models the `except` path: transport error or malformed JSON),
  the composer calls are `String → Except String String` (an
  `Except.error` models a raised exception), and a tool invocation's
  HTTP outcome is an explicit `HttpOutcome` value.
-/

/-- An event placed in (or synthesized for) a session's channel, mirroring
the JSON dicts the source pushes: `status`, `routing`, `final`, and the
`keepalive` synthesized by the streaming endpoint. `routing` carries the
oracle's `tool` and `reasoning` fields, which may be absent (`none`). -/
inductive Event where
  | status (message : String)
  | routing (tool : Option String) (reasoning : Option String)
  | final (response : String)
  | keepalive
deriving DecidableEq, Repr

/-- `ev.isFinal` holds exactly for `final` events. -/
def Event.isFinal : Event → Bool
  | .final _ => true
  | _ => false

/-- `ev.isKeepalive` holds exactly for `keepalive` events. -/
def Event.isKeepalive : Event → Bool
  | .keepalive => true
  | _ => false

/-- The `message_queues` dict: each live session key maps to the ordered
history of events pushed into its channel. -/
def Registry := String → Option (List Event)

/-- The initial empty registry (`message_queues = {}`). -/
def Registry.empty : Registry := fun _ => none

/-- Dict assignment `message_queues[sid] = q`. -/
def Registry.set (r : Registry) (sid : String) (q : List Event) : Registry :=
  fun k => if k = sid then some q else r k

/-- Dict deletion `del message_queues[sid]`. -/
def Registry.erase (r : Registry) (sid : String) : Registry :=
  fun k => if k = sid then none else r k

/-- The guarded put pattern of the source:
`if sid in message_queues: message_queues[sid].put(ev)` — appends when the
session has a live channel, and is a no-op otherwise. -/
def Registry.push (r : Registry) (sid : String) (ev : Event) : Registry :=
  match r sid with
  | some q => r.set sid (q ++ [ev])
  | none => r

/-- The unguarded put `message_queues[sid].put(ev)` used for the `final`
event in `process_message`: raises `KeyError` when the session has no live
channel. -/
def Registry.pushExn (r : Registry) (sid : String) (ev : Event) :
    Except String Registry :=
  match r sid with
  | some q => .ok (r.set sid (q ++ [ev]))
  | none => .error "KeyError"

/-- Folding `Registry.push` over a list of events (used to characterize
what a pipeline stage pushed). -/
def Registry.pushAll (r : Registry) (sid : String) (evs : List Event) : Registry :=
  evs.foldl (fun acc ev => acc.push sid ev) r

/-- The tagged result of a tool invocation, `{success, data|error}`.
`data` is the server's JSON payload, kept opaque as a string. -/
structure ToolResult where
  success : Bool
  data : Option String
  error : Option String
deriving DecidableEq, Repr

/-- The decision oracle's parsed JSON reply `{tool, parameters, reasoning}`.
`parameters` is the (possibly absent) JSON object, modelled as a key/value
list. -/
structure Decision where
  tool : Option String
  parameters : Option (List (String × String))
  reasoning : Option String
deriving DecidableEq, Repr

/-- Python truthiness of the `params` value in
`if tool == "get_weather" and params:` — `None` and the empty dict are
falsy. -/
def paramsTruthy : Option (List (String × String)) → Bool
  | some l => !l.isEmpty
  | none => false

/-- `params.get(key)` rendered into an f-string: an absent key prints as
`"None"`. -/
def paramGet (params : List (String × String)) (key : String) : String :=
  match params.lookup key with
  | some v => v
  | none => "None"

/-- `json.dumps(tool_result.get("data"), indent=2)`, kept opaque:
`None` serializes to `"null"`, a payload serializes to itself. -/
def serializeData : Option String → String
  | some d => d
  | none => "null"

/-- The outcome of `requests.post(.../tools/call, ...)` as seen by
`call_mcp_tool`: either the request raised (transport failure, timeout —
`exn`), or it returned a response with a status code whose body parse
(`response.json()`) either succeeded or raised. -/
inductive HttpOutcome where
  | response (status_code : Nat) (body : Except String ToolResult)
  | exn (e : String)
deriving Repr

/-- `call_mcp_tool(tool, arguments)` from `app.py`: on a 200 response the
parsed JSON is returned verbatim; a non-200 status becomes
`{success: False, error: "HTTP <code>"}`; any exception raised inside the
`try` (transport failure, timeout, body parse) is caught and becomes
`{success: False, error: "Request failed: <e>"}`. The function is total:
nothing escapes the `except` boundary. -/
def call_mcp_tool (outcome : HttpOutcome) : ToolResult :=
  match outcome with
  | .response code body =>
    if code = 200 then
      match body with
      | .ok r => r
      | .error e => ⟨false, none, some ("Request failed: " ++ e)⟩
    else ⟨false, none, some ("HTTP " ++ toString code)⟩
  | .exn e => ⟨false, none, some ("Request failed: " ++ e)⟩

/-- The part of the agent state `route_request` hands to the next node:
`{"msg": ..., "tool_result": ..., "session_id": ...}`. -/
structure RouteOutput where
  msg : String
  tool_result : Option ToolResult
  session_id : String
deriving Repr

/-- `route_request(state)` from `app.py`. `sid?` is
`state.get("session_id", "default")`; `oracle` is the Groq routing call:
`none` models the `except Exception` path (the call or `json.loads`
raised), `some d` the parsed decision. `mcp` is `call_mcp_tool` kept
opaque. The stage pushes its status/routing events through the guarded put
and returns the updated registry together with the new state. -/
def route_request (oracle : Option Decision)
    (mcp : String → List (String × String) → ToolResult)
    (msg : String) (sid? : Option String) (reg : Registry) :
    Registry × RouteOutput :=
  let session_id := sid?.getD "default"
  let reg := reg.push session_id (.status "🤔 Analyzing your request...")
  match oracle with
  | none => (reg, ⟨msg, none, session_id⟩)
  | some d =>
    let reg := reg.push session_id (.routing d.tool d.reasoning)
    if d.tool = some "get_weather" && paramsTruthy d.parameters then
      let p := d.parameters.getD []
      let reg := reg.push session_id
        (.status ("🌤️ Getting weather for " ++ paramGet p "city" ++ "..."))
      (reg, ⟨msg, some (mcp "get_weather" p), session_id⟩)
    else if d.tool = some "web_search" && paramsTruthy d.parameters then
      let p := d.parameters.getD []
      let reg := reg.push session_id
        (.status ("🔍 Searching for: " ++ paramGet p "query" ++ "..."))
      (reg, ⟨msg, some (mcp "web_search" p), session_id⟩)
    else
      (reg, ⟨msg, none, session_id⟩)

/-- `generate_response(state)` from `app.py`. `cd` is the direct composer
call (no tool context), `ct` the grounded composer call on the serialized
tool data; an `Except.error` models a raised exception, caught by the
stage's `except` and converted to `"Error generating response: <e>"`.
When `tool_result.success` is falsy the stage returns the fixed apology
`"I encountered an error: <error>"` without consulting either composer. -/
def generate_response (cd : String → Except String String)
    (ct : String → String → Except String String)
    (msg : String) (tr : Option ToolResult) (sid? : Option String)
    (reg : Registry) : Registry × String :=
  let session_id := sid?.getD "default"
  let reg := reg.push session_id (.status "✍️ Crafting response...")
  match tr with
  | none =>
    match cd msg with
    | .ok r => (reg, r)
    | .error e => (reg, "Error generating response: " ++ e)
  | some t =>
    if !t.success then
      (reg, "I encountered an error: " ++ t.error.getD "Unknown error")
    else
      match ct msg (serializeData t.data) with
      | .ok r => (reg, r)
      | .error e => (reg, "Error generating response: " ++ e)

/-- The body of the background thread spawned by `/chat`:
`agent_graph.invoke({...})` runs `route_request` then `generate_response`
strictly in sequence, after which the `final` event is pushed with the
UNguarded `message_queues[session_id].put(...)` — an `Except.error`
models the `KeyError` this raises when the session has no live channel. -/
def process_message (oracle : Option Decision)
    (mcp : String → List (String × String) → ToolResult)
    (cd : String → Except String String)
    (ct : String → String → Except String String)
    (msg sid : String) (reg : Registry) : Except String Registry :=
  let r1 := route_request oracle mcp msg (some sid) reg
  let r2 := generate_response cd ct r1.2.msg r1.2.tool_result
    (some r1.2.session_id) r1.1
  r2.1.pushExn sid (.final r2.2)

/-- The JSON body of a `POST /chat` request; `none` models an absent key,
read with `data.get('message', '')` / `data.get('session_id', 'default')`. -/
structure ChatRequest where
  message : Option String
  session_id : Option String
deriving Repr

/-- The HTTP result of the `/chat` handler: a 400 error body or the
`{"status": "processing", "session_id": sid}` acknowledgement. -/
inductive ChatResult where
  | badRequest (error : String)
  | accepted (status : String) (session_id : String)
deriving DecidableEq, Repr

/-- The `/chat` handler from `app.py`: an empty (or absent) `message` is
rejected with 400 before the registry is touched; otherwise
`message_queues[session_id] = queue.Queue()` installs a FRESH EMPTY
channel (replacing any existing one) and the pipeline run is spawned —
returned here as the pending `(session_id, message)` pair, since the
thread runs asynchronously. -/
def chat (data : ChatRequest) (reg : Registry) :
    ChatResult × Registry × Option (String × String) :=
  let user_message := data.message.getD ""
  let session_id := data.session_id.getD "default"
  if user_message = "" then
    (.badRequest "No message provided", reg, none)
  else
    (.accepted "processing" session_id, reg.set session_id [],
      some (session_id, user_message))

/-- The opening step of the `/stream/<session_id>` generator:
`if session_id not in message_queues: message_queues[session_id] = queue.Queue()`
— reuses the live channel, otherwise registers a fresh empty one. -/
def streamOpen (reg : Registry) (sid : String) : Registry :=
  match reg sid with
  | some _ => reg
  | none => reg.set sid []

/-- One pass of the stream generator's `while True` loop over the events
currently queued: each event is relayed (yielded) in order; after relaying
a `final` the loop breaks (`sawFinal = true`); when the queue runs dry the
`queue.Empty` timeout yields a `keepalive` (the infinite keepalive tail of
the real loop is truncated to its first element). -/
def streamLoop : List Event → List Event × Bool
  | [] => ([Event.keepalive], false)
  | ev :: rest =>
    if ev.isFinal then ([ev], true)
    else
      let (fs, b) := streamLoop rest
      (ev :: fs, b)

/-- The `/stream/<session_id>` generator over the events available in the
channel: open (or create) the channel, relay queued events in order, and
after relaying a `final` delete the session's entry from the registry;
without a `final` the drained channel stays registered (now empty). The
returned list is the SSE frames yielded. -/
def stream (sid : String) (reg : Registry) : List Event × Registry :=
  let reg1 := streamOpen reg sid
  let q := (reg1 sid).getD []
  if (streamLoop q).2 then ((streamLoop q).1, reg1.erase sid)
  else ((streamLoop q).1, reg1.set sid [])

-- ============================================================
-- Registry lemmas
-- ============================================================

theorem Registry.set_self (r : Registry) (sid : String) (q : List Event) :
    (r.set sid q) sid = some q := by
  simp [Registry.set]

theorem Registry.set_ne (r : Registry) (sid k : String) (q : List Event)
    (h : k ≠ sid) : (r.set sid q) k = r k := by
  simp [Registry.set, h]

theorem Registry.erase_self (r : Registry) (sid : String) :
    (r.erase sid) sid = none := by
  simp [Registry.erase]

theorem Registry.push_self (r : Registry) (sid : String) (ev : Event)
    (q : List Event) (h : r sid = some q) :
    (r.push sid ev) sid = some (q ++ [ev]) := by
  simp [Registry.push, h, Registry.set_self]

theorem Registry.push_none (r : Registry) (sid : String) (ev : Event)
    (h : r sid = none) : r.push sid ev = r := by
  simp [Registry.push, h]

theorem Registry.push_ne (r : Registry) (sid k : String) (ev : Event)
    (h : k ≠ sid) : (r.push sid ev) k = r k := by
  unfold Registry.push
  cases hr : r sid with
  | none => rfl
  | some q => simp [Registry.set_ne _ _ _ _ h]

theorem Registry.pushAll_cons (r : Registry) (sid : String) (ev : Event)
    (evs : List Event) :
    r.pushAll sid (ev :: evs) = (r.push sid ev).pushAll sid evs := rfl

theorem Registry.pushAll_self (r : Registry) (sid : String)
    (evs q : List Event) (h : r sid = some q) :
    (r.pushAll sid evs) sid = some (q ++ evs) := by
  induction evs generalizing r q with
  | nil => simpa [Registry.pushAll]
  | cons ev rest ih =>
    rw [Registry.pushAll_cons]
    rw [ih (r.push sid ev) (q ++ [ev]) (Registry.push_self r sid ev q h)]
    simp

theorem Registry.pushAll_none (r : Registry) (sid : String)
    (evs : List Event) (h : r sid = none) : r.pushAll sid evs = r := by
  induction evs generalizing r with
  | nil => rfl
  | cons ev rest ih =>
    rw [Registry.pushAll_cons, Registry.push_none r sid ev h, ih r h]

theorem Registry.pushAll_ne (r : Registry) (sid k : String)
    (evs : List Event) (h : k ≠ sid) : (r.pushAll sid evs) k = r k := by
  induction evs generalizing r with
  | nil => rfl
  | cons ev rest ih =>
    rw [Registry.pushAll_cons, ih, Registry.push_ne r sid k ev h]

-- ============================================================
-- Stage characterizations
-- ============================================================

/-- `route_request` only ever appends status/routing events (never a
`final`) through the guarded put, and hands the (defaulted) session key
and the original message on to the next node. -/
theorem route_request_spec (oracle : Option Decision)
    (mcp : String → List (String × String) → ToolResult)
    (msg : String) (sid? : Option String) (reg : Registry) :
    ∃ evs : List Event,
      (∀ e ∈ evs, e.isFinal = false) ∧
      (route_request oracle mcp msg sid? reg).1 =
        reg.pushAll (sid?.getD "default") evs ∧
      (route_request oracle mcp msg sid? reg).2.session_id =
        sid?.getD "default" ∧
      (route_request oracle mcp msg sid? reg).2.msg = msg := by
  unfold route_request
  cases oracle with
  | none =>
    refine ⟨[.status "🤔 Analyzing your request..."], ?_, rfl, rfl, rfl⟩
    intro e he
    simp at he
    subst he
    rfl
  | some d =>
    dsimp only
    split
    · refine ⟨[.status "🤔 Analyzing your request...",
        .routing d.tool d.reasoning,
        .status ("🌤️ Getting weather for " ++
          paramGet (d.parameters.getD []) "city" ++ "...")], ?_, rfl, rfl, rfl⟩
      intro e he
      simp at he
      rcases he with rfl | rfl | rfl <;> rfl
    · split
      · refine ⟨[.status "🤔 Analyzing your request...",
          .routing d.tool d.reasoning,
          .status ("🔍 Searching for: " ++
            paramGet (d.parameters.getD []) "query" ++ "...")], ?_, rfl, rfl, rfl⟩
        intro e he
        simp at he
        rcases he with rfl | rfl | rfl <;> rfl
      · refine ⟨[.status "🤔 Analyzing your request...",
          .routing d.tool d.reasoning], ?_, rfl, rfl, rfl⟩
        intro e he
        simp at he
        rcases he with rfl | rfl <;> rfl

/-- `generate_response` pushes exactly one event — the crafting status —
whatever branch produces the response string. -/
theorem generate_response_spec (cd : String → Except String String)
    (ct : String → String → Except String String)
    (msg : String) (tr : Option ToolResult) (sid? : Option String)
    (reg : Registry) :
    (generate_response cd ct msg tr sid? reg).1 =
      reg.push (sid?.getD "default") (.status "✍️ Crafting response...") := by
  unfold generate_response
  cases tr with
  | none => cases h : cd msg <;> simp [h]
  | some t =>
    by_cases hs : t.success
    · cases h : ct msg (serializeData t.data) <;> simp [hs, h]
    · simp [hs]

-- ============================================================
-- Concrete collaborator stubs (used to instantiate theorems at
-- closed inputs)
-- ============================================================

/-- An oracle reply selecting no tool: `{tool: "none", parameters: null,
reasoning: "no tool needed"}`. -/
def oracleNoneDecision : Option Decision :=
  some ⟨some "none", none, some "no tool needed"⟩

/-- A stub tool adapter that always succeeds. -/
def mcpStub : String → List (String × String) → ToolResult :=
  fun _ _ => ⟨true, some "{}", none⟩

/-- A stub direct composer that always answers. -/
def cdStub : String → Except String String :=
  fun _ => .ok "Hi there!"

/-- A stub grounded composer that always answers. -/
def ctStub : String → String → Except String String :=
  fun _ _ => .ok "Here is your answer."

/-- A stub direct composer whose call raises. -/
def cdBoom : String → Except String String :=
  fun _ => .error "boom"

/-- A stub grounded composer whose call raises. -/
def ctBoom : String → String → Except String String :=
  fun _ _ => .error "boom"

/-- A one-session registry whose channel for `"s1"` is live and empty,
as `/chat` leaves it right before spawning the pipeline run. -/
def regS1 : Registry := Registry.empty.set "s1" []

-- ============================================================
-- C1
-- ============================================================

/-- C1: for every valid submission (the session's channel is live when the
run starts, as `/chat` guarantees), the pipeline run completes, pushes
exactly one `final` event into the session's channel, and that `final` is
the last event in the channel's history — every other event the run pushed
(`status`/`routing`) precedes it. -/
theorem C1_run_pushes_single_final_last (oracle : Option Decision)
    (mcp : String → List (String × String) → ToolResult)
    (cd : String → Except String String)
    (ct : String → String → Except String String)
    (msg sid : String) (reg : Registry) (h : List Event)
    (hlive : reg sid = some h) :
    ∃ evs res reg',
      process_message oracle mcp cd ct msg sid reg = .ok reg' ∧
      reg' sid = some (h ++ evs ++ [Event.final res]) ∧
      ∀ e ∈ evs, e.isFinal = false := by
  obtain ⟨evs, hnf, h1, hsid, -⟩ := route_request_spec oracle mcp msg (some sid) reg
  have hd : (some sid).getD "default" = sid := rfl
  rw [hd] at h1 hsid
  have hlook1 : (route_request oracle mcp msg (some sid) reg).1 sid =
      some (h ++ evs) := by
    rw [h1]
    exact Registry.pushAll_self reg sid evs h hlive
  have hgen := generate_response_spec cd ct
    (route_request oracle mcp msg (some sid) reg).2.msg
    (route_request oracle mcp msg (some sid) reg).2.tool_result
    (some (route_request oracle mcp msg (some sid) reg).2.session_id)
    (route_request oracle mcp msg (some sid) reg).1
  rw [show (some (route_request oracle mcp msg (some sid) reg).2.session_id).getD
        "default" = sid by rw [Option.getD_some, hsid]] at hgen
  have hlook2 : (generate_response cd ct
      (route_request oracle mcp msg (some sid) reg).2.msg
      (route_request oracle mcp msg (some sid) reg).2.tool_result
      (some (route_request oracle mcp msg (some sid) reg).2.session_id)
      (route_request oracle mcp msg (some sid) reg).1).1 sid =
      some ((h ++ evs) ++ [Event.status "✍️ Crafting response..."]) := by
    rw [hgen]
    exact Registry.push_self _ sid _ _ hlook1
  set G := generate_response cd ct
    (route_request oracle mcp msg (some sid) reg).2.msg
    (route_request oracle mcp msg (some sid) reg).2.tool_result
    (some (route_request oracle mcp msg (some sid) reg).2.session_id)
    (route_request oracle mcp msg (some sid) reg).1 with hG
  refine ⟨evs ++ [Event.status "✍️ Crafting response..."], G.2,
    G.1.set sid (((h ++ evs) ++ [Event.status "✍️ Crafting response..."]) ++
      [Event.final G.2]), ?_, ?_, ?_⟩
  · show Registry.pushExn G.1 sid (Event.final G.2) = _
    unfold Registry.pushExn
    rw [hlook2]
  · rw [Registry.set_self]
    simp
  · intro e he
    rcases List.mem_append.mp he with hm | hm
    · exact hnf e hm
    · simp at hm
      subst hm
      rfl

/-- Witness for C1 at a concrete valid submission: session `"s1"` with a
live empty channel, the oracle selecting no tool, stub collaborators. -/
theorem C1_witness :
    ∃ evs res reg',
      process_message oracleNoneDecision mcpStub cdStub ctStub
        "Hello! How are you?" "s1" regS1 = .ok reg' ∧
      reg' "s1" = some ([] ++ evs ++ [Event.final res]) ∧
      ∀ e ∈ evs, e.isFinal = false :=
  C1_run_pushes_single_final_last oracleNoneDecision mcpStub cdStub ctStub
    "Hello! How are you?" "s1" regS1 [] rfl

-- ============================================================
-- C2
-- ============================================================

/-- The registry as the first run left it: session `"s1"` live with one
queued status event not yet drained. -/
def regQueued : Registry :=
  Registry.empty.set "s1" [Event.status "first run progress"]

/-- C2 counterexample: a second `/chat` submission under the already-live
key `"s1"` does NOT reuse the existing channel — the handler installs a
fresh empty queue, discarding the event the first run had already queued. -/
theorem C2_counterexample :
    ((chat ⟨some "hi again", some "s1"⟩ regQueued).2.1) "s1" = some [] ∧
    ((chat ⟨some "hi again", some "s1"⟩ regQueued).2.1) "s1" ≠
      regQueued "s1" := by
  constructor
  · rfl
  · intro hcon
    have : (some ([] : List Event)) =
        some [Event.status "first run progress"] := hcon
    simp at this

/-- C2 amended: a submission under a key always REPLACES the channel with
a fresh empty one (dropping queued events); only the stream endpoint's
open reuses a live channel. -/
theorem C2_amended_submission_replaces_channel (data : ChatRequest)
    (reg : Registry) (sid : String) (q : List Event)
    (hmsg : data.message.getD "" ≠ "")
    (hsid : data.session_id.getD "default" = sid)
    (hlive : reg sid = some q) :
    ((chat data reg).2.1) sid = some [] ∧
    streamOpen reg sid = reg ∧
    (chat data reg).1 = .accepted "processing" sid := by
  refine ⟨?_, ?_, ?_⟩
  · simp only [chat, if_neg hmsg, hsid]
    exact Registry.set_self reg sid []
  · unfold streamOpen
    rw [hlive]
  · simp only [chat, if_neg hmsg, hsid]

/-- Witness for the amended C2 at the concrete second submission. -/
theorem C2_amended_witness :
    ((chat ⟨some "hi again", some "s1"⟩ regQueued).2.1) "s1" = some [] ∧
    streamOpen regQueued "s1" = regQueued ∧
    (chat ⟨some "hi again", some "s1"⟩ regQueued).1 =
      .accepted "processing" "s1" :=
  C2_amended_submission_replaces_channel ⟨some "hi again", some "s1"⟩
    regQueued "s1" [Event.status "first run progress"]
    (by decide) rfl rfl

-- ============================================================
-- C3
-- ============================================================

/-- C3 counterexample: a pipeline run for a session with NO live channel
does not drop its `final` event silently — the unguarded
`message_queues[session_id].put` raises `KeyError`. -/
theorem C3_counterexample :
    process_message oracleNoneDecision mcpStub cdStub ctStub "hi" "ghost"
      Registry.empty = Except.error "KeyError" := rfl

/-- C3 amended: when the session has no live channel the guarded
status/routing pushes of both stages are indeed silent no-ops, but the
terminal `final` push raises `KeyError` instead of being dropped. -/
theorem C3_amended_status_dropped_final_raises (oracle : Option Decision)
    (mcp : String → List (String × String) → ToolResult)
    (cd : String → Except String String)
    (ct : String → String → Except String String)
    (msg sid : String) (tr : Option ToolResult) (reg : Registry)
    (hnone : reg sid = none) :
    (route_request oracle mcp msg (some sid) reg).1 = reg ∧
    (generate_response cd ct msg tr (some sid) reg).1 = reg ∧
    process_message oracle mcp cd ct msg sid reg =
      Except.error "KeyError" := by
  obtain ⟨evs, -, h1, hsid, -⟩ := route_request_spec oracle mcp msg (some sid) reg
  have hd : (some sid).getD "default" = sid := rfl
  rw [hd] at h1 hsid
  have hr : (route_request oracle mcp msg (some sid) reg).1 = reg := by
    rw [h1]
    exact Registry.pushAll_none reg sid evs hnone
  refine ⟨hr, ?_, ?_⟩
  · rw [generate_response_spec]
    exact Registry.push_none reg sid _ hnone
  · have hg : (generate_response cd ct
        (route_request oracle mcp msg (some sid) reg).2.msg
        (route_request oracle mcp msg (some sid) reg).2.tool_result
        (some (route_request oracle mcp msg (some sid) reg).2.session_id)
        (route_request oracle mcp msg (some sid) reg).1).1 = reg := by
      rw [generate_response_spec, Option.getD_some, hsid, hr]
      exact Registry.push_none reg sid _ hnone
    show Registry.pushExn _ sid _ = _
    unfold Registry.pushExn
    rw [hg, hnone]

/-- Witness for the amended C3 at a concrete channel-less session. -/
theorem C3_amended_witness :
    (route_request oracleNoneDecision mcpStub "hi" (some "ghost")
      Registry.empty).1 = Registry.empty ∧
    (generate_response cdStub ctStub "hi" none (some "ghost")
      Registry.empty).1 = Registry.empty ∧
    process_message oracleNoneDecision mcpStub cdStub ctStub "hi" "ghost"
      Registry.empty = Except.error "KeyError" :=
  C3_amended_status_dropped_final_raises oracleNoneDecision mcpStub cdStub
    ctStub "hi" "ghost" none Registry.empty rfl

-- ============================================================
-- C4
-- ============================================================

/-- C4 counterexample: with the oracle answering `{tool: "none"}` and a
live channel, the decide stage still pushes a `routing` event — the push
happens before the branch on the selected tool. -/
theorem C4_counterexample :
    ((route_request oracleNoneDecision mcpStub "Hello! How are you?"
        (some "s1") regS1).1) "s1" =
      some [Event.status "🤔 Analyzing your request...",
            Event.routing (some "none") (some "no tool needed")] := rfl

/-- C4 amended: when the oracle returns `{tool: "none"}` the stage makes
no call to the tool adapter (its result does not depend on the adapter,
and the returned `tool_result` is `none`), but it DOES emit a `routing`
event carrying `tool = "none"` into the live channel. -/
theorem C4_amended_no_tool_call_but_routing_emitted
    (mcp mcp' : String → List (String × String) → ToolResult)
    (p : Option (List (String × String))) (rsn : Option String)
    (msg sid : String) (reg : Registry) (q : List Event)
    (hlive : reg sid = some q) :
    route_request (some ⟨some "none", p, rsn⟩) mcp msg (some sid) reg =
      route_request (some ⟨some "none", p, rsn⟩) mcp' msg (some sid) reg ∧
    (route_request (some ⟨some "none", p, rsn⟩) mcp msg
      (some sid) reg).2.tool_result = none ∧
    ((route_request (some ⟨some "none", p, rsn⟩) mcp msg
        (some sid) reg).1) sid =
      some (q ++ [Event.status "🤔 Analyzing your request...",
                  Event.routing (some "none") rsn]) := by
  refine ⟨rfl, rfl, ?_⟩
  have h1 := Registry.push_self reg sid
    (Event.status "🤔 Analyzing your request...") q hlive
  have h2 := Registry.push_self _ sid (Event.routing (some "none") rsn) _ h1
  show ((reg.push sid (Event.status "🤔 Analyzing your request...")).push sid
      (Event.routing (some "none") rsn)) sid = _
  rw [h2]
  simp

/-- A second, observably different stub adapter (used to witness that the
stage's result does not depend on the adapter at all). -/
def mcpStub2 : String → List (String × String) → ToolResult :=
  fun _ _ => ⟨false, none, some "unreachable"⟩

/-- Witness for the amended C4 at the concrete no-tool oracle reply. -/
theorem C4_amended_witness :
    route_request (some ⟨some "none", none, some "no tool needed"⟩) mcpStub
        "Hello! How are you?" (some "s1") regS1 =
      route_request (some ⟨some "none", none, some "no tool needed"⟩) mcpStub2
        "Hello! How are you?" (some "s1") regS1 ∧
    (route_request (some ⟨some "none", none, some "no tool needed"⟩) mcpStub
      "Hello! How are you?" (some "s1") regS1).2.tool_result = none ∧
    ((route_request (some ⟨some "none", none, some "no tool needed"⟩) mcpStub
        "Hello! How are you?" (some "s1") regS1).1) "s1" =
      some ([] ++ [Event.status "🤔 Analyzing your request...",
                   Event.routing (some "none") (some "no tool needed")]) :=
  C4_amended_no_tool_call_but_routing_emitted mcpStub mcpStub2 none
    (some "no tool needed") "Hello! How are you?" "s1" regS1 [] rfl

-- ============================================================
-- C5
-- ============================================================

/-- C5: when the tool result has `success = false`, `generate_response`
returns the fixed-shape apology embedding the literal error detail; the
string is non-empty, contains the error verbatim, and the whole stage is
independent of both composer calls (deterministic path, always succeeds). -/
theorem C5_failure_apology (cd cd' : String → Except String String)
    (ct ct' : String → String → Except String String)
    (msg : String) (sid? : Option String) (t : ToolResult)
    (reg : Registry) (e : String)
    (hfail : t.success = false) (herr : t.error = some e) :
    (generate_response cd ct msg (some t) sid? reg).2 =
      "I encountered an error: " ++ e ∧
    (generate_response cd ct msg (some t) sid? reg).2 ≠ "" ∧
    e.data <:+ ((generate_response cd ct msg (some t) sid? reg).2).data ∧
    generate_response cd ct msg (some t) sid? reg =
      generate_response cd' ct' msg (some t) sid? reg := by
  have hmain : (generate_response cd ct msg (some t) sid? reg).2 =
      "I encountered an error: " ++ e := by
    simp [generate_response, hfail, herr]
  refine ⟨hmain, ?_, ?_, ?_⟩
  · rw [hmain]
    intro hcon
    have hdata := congrArg String.data hcon
    rw [String.data_append] at hdata
    rcases List.append_eq_nil.mp hdata with ⟨ha, -⟩
    exact absurd ha (by decide)
  · rw [hmain, String.data_append]
    exact List.suffix_append _ _
  · simp [generate_response, hfail]

/-- A failed tool result as the adapter produces it for an HTTP 500. -/
def toolFail500 : ToolResult := ⟨false, none, some "HTTP 500"⟩

/-- Witness for C5 at the concrete `{success: false, error: "HTTP 500"}`
result of the weather scenario. -/
theorem C5_witness :
    (generate_response cdStub ctStub "Weather in Lagos?" (some toolFail500)
      (some "s2") regS1).2 = "I encountered an error: " ++ "HTTP 500" ∧
    (generate_response cdStub ctStub "Weather in Lagos?" (some toolFail500)
      (some "s2") regS1).2 ≠ "" ∧
    "HTTP 500".data <:+ ((generate_response cdStub ctStub "Weather in Lagos?"
      (some toolFail500) (some "s2") regS1).2).data ∧
    generate_response cdStub ctStub "Weather in Lagos?" (some toolFail500)
        (some "s2") regS1 =
      generate_response cdBoom ctBoom "Weather in Lagos?" (some toolFail500)
        (some "s2") regS1 :=
  C5_failure_apology cdStub cdBoom ctStub ctBoom "Weather in Lagos?"
    (some "s2") toolFail500 regS1 "HTTP 500" rfl rfl

-- ============================================================
-- C6
-- ============================================================

/-- C6: whichever composer call the stage makes, a raised exception is
caught and converted into a returned string describing the failure —
`generate_response` never propagates it (its result type is a plain
string, total on every input). -/
theorem C6_composer_exception_absorbed (cd : String → Except String String)
    (ct : String → String → Except String String)
    (msg : String) (sid? : Option String) (reg : Registry)
    (t : ToolResult) (e e' : String)
    (h1 : cd msg = Except.error e)
    (hs : t.success = true)
    (h2 : ct msg (serializeData t.data) = Except.error e') :
    (generate_response cd ct msg none sid? reg).2 =
      "Error generating response: " ++ e ∧
    (generate_response cd ct msg (some t) sid? reg).2 =
      "Error generating response: " ++ e' := by
  constructor
  · simp [generate_response, h1]
  · simp [generate_response, hs, h2]

/-- A successful tool result with an opaque payload. -/
def toolOk : ToolResult := ⟨true, some "temp 21", none⟩

/-- Witness for C6: both composer stubs raise `"boom"`; on both the
conversational and the grounded path the stage returns the failure
string instead of propagating. -/
theorem C6_witness :
    (generate_response cdBoom ctBoom "hi" none (some "s1") regS1).2 =
      "Error generating response: " ++ "boom" ∧
    (generate_response cdBoom ctBoom "hi" (some toolOk) (some "s1")
      regS1).2 = "Error generating response: " ++ "boom" :=
  C6_composer_exception_absorbed cdBoom ctBoom "hi" (some "s1") regS1
    toolOk "boom" "boom" rfl rfl rfl

-- ============================================================
-- C7
-- ============================================================

/-- C7: every failure mode of a tool invocation — a non-success HTTP
status, a raised transport/timeout exception, and even a body-parse
failure on a 200 — is captured as `ToolResult{success: false, error:
<description>}`; `call_mcp_tool` is a total function, so nothing raises
past the adapter boundary. -/
theorem C7_adapter_absorbs_failures (c : Nat)
    (body : Except String ToolResult) (e pe : String) (hc : c ≠ 200) :
    call_mcp_tool (.response c body) =
      ⟨false, none, some ("HTTP " ++ toString c)⟩ ∧
    call_mcp_tool (.exn e) =
      ⟨false, none, some ("Request failed: " ++ e)⟩ ∧
    call_mcp_tool (.response 200 (.error pe)) =
      ⟨false, none, some ("Request failed: " ++ pe)⟩ := by
  refine ⟨?_, rfl, rfl⟩
  simp [call_mcp_tool, hc]

/-- Witness for C7 at HTTP 500, a timeout exception, and a parse error. -/
theorem C7_witness :
    call_mcp_tool (.response 500 (.ok toolOk)) =
      ⟨false, none, some ("HTTP " ++ toString 500)⟩ ∧
    call_mcp_tool (.exn "Read timed out") =
      ⟨false, none, some ("Request failed: " ++ "Read timed out")⟩ ∧
    call_mcp_tool (.response 200 (.error "Expecting value")) =
      ⟨false, none, some ("Request failed: " ++ "Expecting value")⟩ :=
  C7_adapter_absorbs_failures 500 (.ok toolOk) "Read timed out"
    "Expecting value" (by decide)

-- ============================================================
-- Stream lemmas
-- ============================================================

/-- The frames one loop pass relays contain a `final` exactly when the
pass stopped because it relayed one. -/
theorem streamLoop_any_final (q : List Event) :
    ((streamLoop q).1.any Event.isFinal) = (streamLoop q).2 := by
  induction q with
  | nil => rfl
  | cons ev rest ih =>
    by_cases h : ev.isFinal = true
    · simp [streamLoop, h]
    · rw [Bool.not_eq_true] at h
      rcases hsl : streamLoop rest with ⟨fs, b⟩
      rw [hsl] at ih
      simp [streamLoop, h, hsl]
      simpa using ih

/-- Whichever branch the loop ends in, the relayed frames are the loop's
frames over the currently queued events. -/
theorem stream_frames (sid : String) (reg : Registry) :
    (stream sid reg).1 =
      (streamLoop (((streamOpen reg sid) sid).getD [])).1 := by
  unfold stream
  dsimp only
  split <;> rfl

/-- A subscription against a session with no live channel registers a
fresh empty channel and relays only a keepalive frame. -/
theorem stream_fresh (sid : String) (reg : Registry)
    (hnone : reg sid = none) :
    (stream sid reg).1 = [Event.keepalive] := by
  rw [stream_frames]
  have h1 : streamOpen reg sid = reg.set sid [] := by
    unfold streamOpen
    rw [hnone]
  rw [h1, Registry.set_self]
  rfl

-- ============================================================
-- C8
-- ============================================================

/-- C8: once the stream has relayed a `final` frame, the session's entry
is removed from the registry — so the channel cannot be drained again —
and a fresh subscription for the same session id registers an empty new
channel whose only frame is a keepalive: none of the earlier events are
replayed. -/
theorem C8_final_removes_channel (sid : String) (reg : Registry)
    (hfin : ((stream sid reg).1).any Event.isFinal = true) :
    ((stream sid reg).2) sid = none ∧
    (stream sid ((stream sid reg).2)).1 = [Event.keepalive] := by
  have hsaw : (streamLoop (((streamOpen reg sid) sid).getD [])).2 = true := by
    rw [← streamLoop_any_final, ← stream_frames]
    exact hfin
  have hbranch : stream sid reg =
      ((streamLoop (((streamOpen reg sid) sid).getD [])).1,
        (streamOpen reg sid).erase sid) := by
    unfold stream
    rw [if_pos hsaw]
  have hgone : ((stream sid reg).2) sid = none := by
    rw [hbranch]
    exact Registry.erase_self _ _
  exact ⟨hgone, stream_fresh sid _ hgone⟩

/-- The channel after a pipeline run finished: two progress events then
the terminal `final`. -/
def regDone : Registry :=
  Registry.empty.set "s1"
    [Event.status "🤔 Analyzing your request...",
     Event.status "✍️ Crafting response...",
     Event.final "All done."]

/-- Witness for C8 at a concrete finished channel. -/
theorem C8_witness :
    ((stream "s1" regDone).2) "s1" = none ∧
    (stream "s1" ((stream "s1" regDone).2)).1 = [Event.keepalive] :=
  C8_final_removes_channel "s1" regDone (by decide)

-- ============================================================
-- C9
-- ============================================================

/-- C9: an empty (or absent) `message` is rejected with the 400 error
body before any channel is created — the registry is returned untouched
and no pipeline run is spawned — and a stream against the never-submitted
session relays no pipeline event frame (only a synthesized keepalive). -/
theorem C9_empty_message_rejected (data : ChatRequest) (reg : Registry)
    (sid : String) (hempty : data.message.getD "" = "")
    (hnochan : reg sid = none) :
    chat data reg = (.badRequest "No message provided", reg, none) ∧
    ((stream sid reg).1).filter (fun e => !e.isKeepalive) = [] := by
  constructor
  · simp [chat, hempty]
  · rw [stream_fresh sid reg hnochan]
    rfl

/-- Witness for C9 at a concrete empty submission against the empty
registry. -/
theorem C9_witness :
    chat ⟨some "", some "s9"⟩ Registry.empty =
      (.badRequest "No message provided", Registry.empty, none) ∧
    ((stream "s9" Registry.empty).1).filter (fun e => !e.isKeepalive) = [] :=
  C9_empty_message_rejected ⟨some "", some "s9"⟩ Registry.empty "s9" rfl rfl

-- ============================================================
-- C10
-- ============================================================

/-- The decide stage writes only under its own (defaulted) session key:
every other registry entry is untouched. -/
theorem route_request_frame (oracle : Option Decision)
    (mcp : String → List (String × String) → ToolResult)
    (msg : String) (sid? : Option String) (reg : Registry) (k : String)
    (hk : k ≠ sid?.getD "default") :
    (route_request oracle mcp msg sid? reg).1 k = reg k := by
  obtain ⟨evs, -, h1, -, -⟩ := route_request_spec oracle mcp msg sid? reg
  rw [h1]
  exact Registry.pushAll_ne reg _ k evs hk

/-- C10: a submission that omits `session_id` is keyed under the fixed
string `"default"`: the acknowledgement names `"default"`, the channel is
registered under `"default"` (other keys untouched), the spawned run is
keyed `"default"`, and both pipeline stages of a `"default"`-keyed run
push only into the `"default"` entry — so all such submissions target the
channel registered under the one shared key. -/
theorem C10_omitted_session_uses_default (msg msg2 : String)
    (reg reg2 : Registry) (oracle : Option Decision)
    (mcp : String → List (String × String) → ToolResult)
    (cd : String → Except String String)
    (ct : String → String → Except String String) (k : String)
    (hmsg : msg ≠ "") (hk : k ≠ "default") :
    (chat ⟨some msg, none⟩ reg).1 = .accepted "processing" "default" ∧
    (chat ⟨some msg, none⟩ reg).2.2 = some ("default", msg) ∧
    ((chat ⟨some msg, none⟩ reg).2.1) "default" = some [] ∧
    ((chat ⟨some msg, none⟩ reg).2.1) k = reg k ∧
    (route_request oracle mcp msg2 none reg2).2.session_id = "default" ∧
    (route_request oracle mcp msg2 none reg2).1 k = reg2 k ∧
    (∀ reg', process_message oracle mcp cd ct msg2 "default" reg2 = .ok reg' →
      reg' k = reg2 k) := by
  obtain ⟨evs0, -, -, hsid0, -⟩ := route_request_spec oracle mcp msg2 none reg2
  obtain ⟨evs1, -, h11, hsid1, -⟩ :=
    route_request_spec oracle mcp msg2 (some "default") reg2
  have hd : (some "default").getD "default" = "default" := rfl
  rw [hd] at h11 hsid1
  have hchat : chat ⟨some msg, none⟩ reg =
      (.accepted "processing" "default", reg.set "default" [],
        some ("default", msg)) := by
    simp [chat, hmsg]
  refine ⟨?_, ?_, ?_, ?_, hsid0, ?_, ?_⟩
  · rw [hchat]
  · rw [hchat]
  · rw [hchat]
    exact Registry.set_self reg "default" []
  · rw [hchat]
    exact Registry.set_ne reg "default" k [] hk
  · exact route_request_frame oracle mcp msg2 none reg2 k hk
  · intro reg' hok
    have hGk : (generate_response cd ct
        (route_request oracle mcp msg2 (some "default") reg2).2.msg
        (route_request oracle mcp msg2 (some "default") reg2).2.tool_result
        (some (route_request oracle mcp msg2 (some "default") reg2).2.session_id)
        (route_request oracle mcp msg2 (some "default") reg2).1).1 k = reg2 k := by
      rw [generate_response_spec, Option.getD_some, hsid1]
      rw [Registry.push_ne _ _ k _ hk]
      rw [h11]
      exact Registry.pushAll_ne reg2 "default" k evs1 hk
    simp only [process_message] at hok
    unfold Registry.pushExn at hok
    cases hq : (generate_response cd ct
        (route_request oracle mcp msg2 (some "default") reg2).2.msg
        (route_request oracle mcp msg2 (some "default") reg2).2.tool_result
        (some (route_request oracle mcp msg2 (some "default") reg2).2.session_id)
        (route_request oracle mcp msg2 (some "default") reg2).1).1 "default" with
    | none =>
      rw [hq] at hok
      simp at hok
    | some q =>
      rw [hq] at hok
      simp only [Except.ok.injEq] at hok
      rw [← hok, Registry.set_ne _ _ k _ hk]
      exact hGk

/-- A registry already holding the `"default"` channel (as a first
defaulted submission leaves it). -/
def regDefault : Registry := Registry.empty.set "default" []

/-- Witness for C10 at two concrete submissions that omit `session_id`. -/
theorem C10_witness :
    (chat ⟨some "hi", none⟩ Registry.empty).1 =
      .accepted "processing" "default" ∧
    (chat ⟨some "hi", none⟩ Registry.empty).2.2 = some ("default", "hi") ∧
    ((chat ⟨some "hi", none⟩ Registry.empty).2.1) "default" = some [] ∧
    ((chat ⟨some "hi", none⟩ Registry.empty).2.1) "other" =
      Registry.empty "other" ∧
    (route_request oracleNoneDecision mcpStub "hello again" none
      regDefault).2.session_id = "default" ∧
    (route_request oracleNoneDecision mcpStub "hello again" none
      regDefault).1 "other" = regDefault "other" ∧
    (∀ reg', process_message oracleNoneDecision mcpStub cdStub ctStub
        "hello again" "default" regDefault = .ok reg' →
      reg' "other" = regDefault "other") :=
  C10_omitted_session_uses_default "hi" "hello again" Registry.empty
    regDefault oracleNoneDecision mcpStub cdStub ctStub "other"
    (by decide) (by decide)
